import Mathlib

/-!
Verification of the device-fleet health-monitoring backend.

Shallow embedding of the core components:
* `health_scoring` — per-metric normalization curves and the composite
  health score (`src/backend/app/services/health_scoring.py`);
* the `Alert` rule entity with condition evaluation, trigger/reset state
  and the debounce window (`src/backend/app/models/alert.py`);
* the alert evaluation engine (`src/backend/app/services/alert_service.py`);
* the WebSocket connection registry (`src/backend/app/services/websocket_manager.py`).

Python floats are modelled as rationals (ℚ); wall-clock instants as
rationals measured in minutes; WebSocket connection handles as naturals,
with a `dead : Conn → Bool` oracle standing for "send to this connection
fails".  Python dicts are modelled as association lists with unique keys
in insertion order, and Python `list.remove` as `List.erase` (first
occurrence).
-/

/-- Embeds `normalize_cpu_score` (health_scoring.py, lines 41-53). -/
def normalize_cpu_score (cpu_usage : ℚ) : ℚ :=
  if cpu_usage ≤ 20 then 100
  else if cpu_usage ≤ 50 then 100 - (cpu_usage - 20) * 1.5
  else if cpu_usage ≤ 80 then 55 - (cpu_usage - 50) * 1
  else max 0 (25 - (cpu_usage - 80) * 1.25)

/-- Embeds `normalize_ram_score` (health_scoring.py, lines 56-68). -/
def normalize_ram_score (ram_usage : ℚ) : ℚ :=
  if ram_usage ≤ 30 then 100
  else if ram_usage ≤ 60 then 100 - (ram_usage - 30) * 1.2
  else if ram_usage ≤ 85 then 64 - (ram_usage - 60) * 1
  else max 0 (39 - (ram_usage - 85) * 2.6)

/-- Embeds `normalize_temperature_score` (health_scoring.py, lines 71-91). -/
def normalize_temperature_score (temperature : ℚ) : ℚ :=
  if 20 ≤ temperature ∧ temperature ≤ 40 then 100
  else if 15 ≤ temperature ∧ temperature < 20 then 100 - (20 - temperature) * 2
  else if 40 < temperature ∧ temperature ≤ 50 then 100 - (temperature - 40) * 2
  else if 10 ≤ temperature ∧ temperature < 15 then 90 - (15 - temperature) * 3
  else if 50 < temperature ∧ temperature ≤ 60 then 80 - (temperature - 50) * 3
  else if 5 ≤ temperature ∧ temperature < 10 then 75 - (10 - temperature) * 5
  else if 60 < temperature ∧ temperature ≤ 70 then 50 - (temperature - 60) * 5
  else max 0 (25 - |temperature - 35| * 0.5)

/-- Embeds `normalize_disk_score` (health_scoring.py, lines 94-108). -/
def normalize_disk_score (free_disk_space : ℚ) : ℚ :=
  if 50 ≤ free_disk_space then 100
  else if 30 ≤ free_disk_space then 100 - (50 - free_disk_space) * 1
  else if 20 ≤ free_disk_space then 80 - (30 - free_disk_space) * 2
  else if 10 ≤ free_disk_space then 60 - (20 - free_disk_space) * 3
  else max 0 (30 - (10 - free_disk_space) * 3)

/-- Embeds `normalize_connectivity_score` (health_scoring.py, lines 111-116). -/
def normalize_connectivity_score (connectivity : Bool) : ℚ :=
  if connectivity then 100 else 0

/-- Embeds the `HealthScoreWeights` dataclass (health_scoring.py, lines 10-16):
five weights, arbitrary rationals (the dataclass only logs a warning when they
do not sum to 1). -/
structure HealthScoreWeights where
  cpu_weight : ℚ
  ram_weight : ℚ
  temp_weight : ℚ
  disk_weight : ℚ
  connectivity_weight : ℚ

/-- The default weights from `Settings` (config.py, lines 38-42). -/
def defaultWeights : HealthScoreWeights :=
  ⟨0.25, 0.25, 0.30, 0.15, 0.05⟩

/-- Python's `round` ties-to-even rounding of a rational to an integer. -/
def roundHalfEven (y : ℚ) : ℤ :=
  if Int.fract y = 1 / 2 then (if ⌊y⌋ % 2 = 0 then ⌊y⌋ else ⌊y⌋ + 1)
  else round y

/-- Python's `round(x, 2)`: round to two decimal places, ties to even. -/
def round2 (x : ℚ) : ℚ :=
  (roundHalfEven (x * 100) : ℚ) / 100

/-- Embeds `calculate_health_score` (health_scoring.py, lines 119-191): the
weighted sum of the normalized sub-scores, clamped to [0,100] and rounded to
two decimals.  Every operation of the Python body is total on rationals, so
the `except` branch that returns 0.0 is unreachable in this model. -/
def calculate_health_score (cpu_usage ram_usage temperature free_disk_space : ℚ)
    (connectivity : Bool) (weights : HealthScoreWeights) : ℚ :=
  let cpu_score := normalize_cpu_score cpu_usage
  let ram_score := normalize_ram_score ram_usage
  let temp_score := normalize_temperature_score temperature
  let disk_score := normalize_disk_score free_disk_space
  let connectivity_score := normalize_connectivity_score connectivity
  let health_score :=
    cpu_score * weights.cpu_weight +
    ram_score * weights.ram_weight +
    temp_score * weights.temp_weight +
    disk_score * weights.disk_weight +
    connectivity_score * weights.connectivity_weight
  round2 (max 0 (min 100 health_score))

/-! ## Alert rule entity (src/backend/app/models/alert.py) -/

/-- One entry of the `conditions` JSON list: a metric name, a comparison
operator string and a threshold value. -/
structure AlertCondition where
  metric : String
  operator : String
  value : ℚ
deriving DecidableEq

/-- A heartbeat payload: the Python dict `heartbeat_data`, modelled as an
association list from metric names to rational values. -/
abbrev Heartbeat := List (String × ℚ)

/-- The `Alert` ORM entity, restricted to the fields the rule engine reads or
writes.  `last_triggered` is an optional instant measured in minutes. -/
structure Alert where
  id : String
  name : String
  description : String
  device_id : String
  conditions : List AlertCondition
  duration_minutes : ℚ
  is_active : Bool
  last_triggered : Option ℚ
  trigger_count : ℕ
deriving DecidableEq

/-- The body of the per-condition loop in `Alert.evaluate_conditions`
(alert.py, lines 66-93): a condition whose metric is absent from the
heartbeat is skipped (`continue`), and each recognized operator compares the
heartbeat value against the threshold; an unrecognized operator matches no
branch and falls through. -/
def checkCondition (hb : Heartbeat) (c : AlertCondition) : Bool :=
  match hb.lookup c.metric with
  | none => true
  | some current_value =>
    if c.operator = ">" then decide (current_value > c.value)
    else if c.operator = ">=" then decide (current_value ≥ c.value)
    else if c.operator = "<" then decide (current_value < c.value)
    else if c.operator = "<=" then decide (current_value ≤ c.value)
    else if c.operator = "==" then decide (current_value = c.value)
    else if c.operator = "!=" then decide (current_value ≠ c.value)
    else true

/-- Embeds `Alert.evaluate_conditions` (alert.py, lines 61-95):
`if not self.conditions or not self.is_active: return False`, then the
conjunction of the per-condition checks. -/
def evaluate_conditions (a : Alert) (hb : Heartbeat) : Bool :=
  if a.conditions.isEmpty || !a.is_active then false
  else a.conditions.all (checkCondition hb)

/-- Embeds the `Alert.is_triggered` property (alert.py, lines 37-44):
true iff `last_triggered` is set and lies strictly inside the debounce
window ending at `now` (`last_triggered > now - duration_minutes`). -/
def is_triggered (a : Alert) (now : ℚ) : Bool :=
  match a.last_triggered with
  | none => false
  | some t => decide (t > now - a.duration_minutes)

/-- Embeds `Alert.trigger` (alert.py, lines 97-101): stamp `last_triggered`
with the current time and increment `trigger_count`. -/
def Alert.trigger (a : Alert) (now : ℚ) : Alert :=
  { a with last_triggered := some now, trigger_count := a.trigger_count + 1 }

/-- Embeds `Alert.reset` (alert.py, lines 103-105): clear `last_triggered`. -/
def Alert.reset (a : Alert) : Alert :=
  { a with last_triggered := none }

/-- The per-alert body of the loop in `AlertService.evaluate_device_alerts`
(alert_service.py, lines 35-50): if the conditions hold and the rule is not
already inside its debounce window, trigger it; the boolean records whether a
notification was emitted for this alert on this heartbeat. -/
def evaluateAlertStep (now : ℚ) (hb : Heartbeat) (a : Alert) : Alert × Bool :=
  if evaluate_conditions a hb then
    if is_triggered a now then (a, false)
    else (a.trigger now, true)
  else (a, false)

/-- The loop of `AlertService.evaluate_device_alerts` over the device's
active alerts, returning the updated alert states, the list of newly
triggered alerts, and the number of notifications sent (one per newly
triggered alert, emitted before the next rule is evaluated). -/
def evalLoop (now : ℚ) (hb : Heartbeat) : List Alert → List Alert × List Alert × ℕ
  | [] => ([], [], 0)
  | a :: rest =>
    let s := evaluateAlertStep now hb a
    let r := evalLoop now hb rest
    (s.1 :: r.1, (if s.2 then [s.1] else []) ++ r.2.1, (if s.2 then 1 else 0) + r.2.2)

/-- Embeds `AlertService.evaluate_device_alerts` (alert_service.py,
lines 18-56): the database query keeps only the device's alerts with
`is_active == True`; each is then evaluated by the loop. -/
def evaluate_device_alerts (now : ℚ) (hb : Heartbeat) (alerts : List Alert) :
    List Alert × List Alert × ℕ :=
  evalLoop now hb (alerts.filter (fun a => a.is_active))

/-- The spec's six comparison operators. -/
def knownOps : List String := [">", ">=", "<", "<=", "==", "!="]

/-- Modelled from the spec's wording for `evaluate(heartbeat)`: "every
condition must hold (logical AND) against the corresponding field of the
heartbeat", read as the plain mathematical comparison selected by the
operator — a string outside the six comparison operators denotes no
comparison and is mapped to `false` here.  Used to compare the code's
fall-through behaviour against the spec's reading. -/
def opHolds (op : String) (current_value value : ℚ) : Bool :=
  if op = ">" then decide (current_value > value)
  else if op = ">=" then decide (current_value ≥ value)
  else if op = "<" then decide (current_value < value)
  else if op = "<=" then decide (current_value ≤ value)
  else if op = "==" then decide (current_value = value)
  else if op = "!=" then decide (current_value ≠ value)
  else false

/-! ## WebSocket connection registry (src/backend/app/services/websocket_manager.py) -/

/-- A live WebSocket connection handle. -/
abbrev Conn := ℕ

/-- One of the two membership maps of `ConnectionManager`: a Python dict
from key strings to Python lists of connections, modelled as an association
list with unique keys in insertion order. -/
abbrev ConnMap := List (String × List Conn)

/-- Python `d[k] = v`: replace the value at `k` in place, or append a new
entry at the end. -/
def setEntry (k : String) (v : List Conn) : ConnMap → ConnMap
  | [] => [(k, v)]
  | (k', v') :: rest => if k' = k then (k, v) :: rest else (k', v') :: setEntry k v rest

/-- Python `del d[k]`. -/
def delEntry (k : String) : ConnMap → ConnMap
  | [] => []
  | (k', v') :: rest => if k' = k then rest else (k', v') :: delEntry k rest

/-- The `ConnectionManager` state: `active_connections` keyed by device id,
`user_connections` keyed by user id (websocket_manager.py, lines 12-14). -/
structure ConnectionManager where
  active_connections : ConnMap
  user_connections : ConnMap
deriving DecidableEq

/-- Embeds `ConnectionManager.connect` (websocket_manager.py, lines 16-30):
append the connection to the list at each provided key, creating a fresh
(empty-then-appended) entry for an unseen key. -/
def connect (ws : Conn) (device_id user_id : Option String) (m : ConnectionManager) :
    ConnectionManager :=
  let m₁ :=
    match device_id with
    | none => m
    | some d =>
      { m with active_connections :=
          setEntry d (((m.active_connections.lookup d).getD []) ++ [ws]) m.active_connections }
  match user_id with
  | none => m₁
  | some u =>
    { m₁ with user_connections :=
        setEntry u (((m₁.user_connections.lookup u).getD []) ++ [ws]) m₁.user_connections }

/-- Python's `if websocket in connections: connections.remove(websocket)`:
remove the first occurrence when the connection is a member. -/
def removeIfMember (ws : Conn) (conns : List Conn) : List Conn :=
  if ws ∈ conns then conns.erase ws else conns

/-- The per-map body of `ConnectionManager.disconnect` (websocket_manager.py,
lines 34-46): if the key is present, remove the first occurrence of the
connection when it is a member, then delete the key if its list is empty. -/
def disconnectMap (ws : Conn) (k : String) (mp : ConnMap) : ConnMap :=
  match mp.lookup k with
  | none => mp
  | some conns =>
    if removeIfMember ws conns = [] then delEntry k mp
    else setEntry k (removeIfMember ws conns) mp

/-- Embeds `ConnectionManager.disconnect` (websocket_manager.py, lines 32-46). -/
def disconnect (ws : Conn) (device_id user_id : Option String) (m : ConnectionManager) :
    ConnectionManager :=
  let m₁ :=
    match device_id with
    | none => m
    | some d => { m with active_connections := disconnectMap ws d m.active_connections }
  match user_id with
  | none => m₁
  | some u => { m₁ with user_connections := disconnectMap ws u m₁.user_connections }

/-- Embeds `ConnectionManager.broadcast_to_device` (websocket_manager.py,
lines 55-72).  `dead c = true` models "`send_text` to `c` raises".  The first
loop attempts a send to every member in order and collects the failing ones in
`disconnected`; the second loop removes each collected connection (Python
`list.remove`, i.e. first occurrence) from the key's own list — and only from
it.  Returns the new state and the list of connections delivered to. -/
def broadcast_to_device (dead : Conn → Bool) (device_id : String) (m : ConnectionManager) :
    ConnectionManager × List Conn :=
  match m.active_connections.lookup device_id with
  | none => (m, [])
  | some conns =>
    ({ m with active_connections :=
        setEntry device_id ((conns.filter dead).foldl List.erase conns) m.active_connections },
      conns.filter (fun c => !dead c))

/-- Embeds `ConnectionManager.broadcast_to_user` (websocket_manager.py,
lines 74-91): identical to `broadcast_to_device` on the user-keyed map. -/
def broadcast_to_user (dead : Conn → Bool) (user_id : String) (m : ConnectionManager) :
    ConnectionManager × List Conn :=
  match m.user_connections.lookup user_id with
  | none => (m, [])
  | some conns =>
    ({ m with user_connections :=
        setEntry user_id ((conns.filter dead).foldl List.erase conns) m.user_connections },
      conns.filter (fun c => !dead c))

/-- The per-map body of `ConnectionManager._cleanup_connection`
(websocket_manager.py, lines 117-129): for every key whose list contains the
connection, remove its first occurrence and drop the key if the list became
empty. -/
def cleanupMap (ws : Conn) (mp : ConnMap) : ConnMap :=
  mp.filterMap (fun kv =>
    if ws ∈ kv.2 then
      if kv.2.erase ws = [] then none else some (kv.1, kv.2.erase ws)
    else some kv)

/-- Embeds `ConnectionManager._cleanup_connection`: applied to both maps. -/
def cleanup_connection (ws : Conn) (m : ConnectionManager) : ConnectionManager :=
  ⟨cleanupMap ws m.active_connections, cleanupMap ws m.user_connections⟩

/-- The Python set `all_connections` built by `broadcast_to_all`
(websocket_manager.py, lines 96-102): the union of every membership list of
both maps, modelled as a duplicate-free list (Python set iteration order is
unspecified and irrelevant to the claims proved here). -/
def allConnections (m : ConnectionManager) : List Conn :=
  ((m.active_connections.map Prod.snd).flatten ++
    (m.user_connections.map Prod.snd).flatten).dedup

/-- Embeds `ConnectionManager.broadcast_to_all` (websocket_manager.py,
lines 93-115): one send attempt per distinct connection; every failing
connection is afterwards passed to `_cleanup_connection`. -/
def broadcast_to_all (dead : Conn → Bool) (m : ConnectionManager) :
    ConnectionManager × List Conn :=
  (((allConnections m).filter dead).foldl (fun acc c => cleanup_connection c acc) m,
    (allConnections m).filter (fun c => !dead c))

/-- The no-empty-keys registry invariant: every key present in either map
holds a non-empty membership list. -/
def noEmptyKeys (m : ConnectionManager) : Prop :=
  (∀ kv ∈ m.active_connections, kv.2 ≠ []) ∧ (∀ kv ∈ m.user_connections, kv.2 ≠ [])

/-! ## Helper lemmas: normalization curve segments -/

theorem cpu_seg1 {x : ℚ} (h : x ≤ 20) : normalize_cpu_score x = 100 := by
  unfold normalize_cpu_score
  rw [if_pos h]

theorem cpu_seg2 {x : ℚ} (h1 : 20 < x) (h2 : x ≤ 50) :
    normalize_cpu_score x = 100 - (x - 20) * 1.5 := by
  unfold normalize_cpu_score
  rw [if_neg (not_le.mpr h1), if_pos h2]

theorem cpu_seg3 {x : ℚ} (h1 : 50 < x) (h2 : x ≤ 80) :
    normalize_cpu_score x = 55 - (x - 50) * 1 := by
  unfold normalize_cpu_score
  rw [if_neg (not_le.mpr (by linarith)), if_neg (not_le.mpr h1), if_pos h2]

theorem cpu_seg4 {x : ℚ} (h1 : 80 < x) :
    normalize_cpu_score x = max 0 (25 - (x - 80) * 1.25) := by
  unfold normalize_cpu_score
  rw [if_neg (not_le.mpr (by linarith)), if_neg (not_le.mpr (by linarith)),
    if_neg (not_le.mpr h1)]

theorem ram_seg1 {x : ℚ} (h : x ≤ 30) : normalize_ram_score x = 100 := by
  unfold normalize_ram_score
  rw [if_pos h]

theorem ram_seg2 {x : ℚ} (h1 : 30 < x) (h2 : x ≤ 60) :
    normalize_ram_score x = 100 - (x - 30) * 1.2 := by
  unfold normalize_ram_score
  rw [if_neg (not_le.mpr h1), if_pos h2]

theorem ram_seg3 {x : ℚ} (h1 : 60 < x) (h2 : x ≤ 85) :
    normalize_ram_score x = 64 - (x - 60) * 1 := by
  unfold normalize_ram_score
  rw [if_neg (not_le.mpr (by linarith)), if_neg (not_le.mpr h1), if_pos h2]

theorem ram_seg4 {x : ℚ} (h1 : 85 < x) :
    normalize_ram_score x = max 0 (39 - (x - 85) * 2.6) := by
  unfold normalize_ram_score
  rw [if_neg (not_le.mpr (by linarith)), if_neg (not_le.mpr (by linarith)),
    if_neg (not_le.mpr h1)]

theorem temp_band {t : ℚ} (h1 : 20 ≤ t) (h2 : t ≤ 40) :
    normalize_temperature_score t = 100 := by
  unfold normalize_temperature_score
  rw [if_pos ⟨h1, h2⟩]

theorem temp_cool1 {t : ℚ} (h1 : 15 ≤ t) (h2 : t < 20) :
    normalize_temperature_score t = 100 - (20 - t) * 2 := by
  unfold normalize_temperature_score
  rw [if_neg (by rintro ⟨u, v⟩; linarith), if_pos ⟨h1, h2⟩]

theorem temp_warm1 {t : ℚ} (h1 : 40 < t) (h2 : t ≤ 50) :
    normalize_temperature_score t = 100 - (t - 40) * 2 := by
  unfold normalize_temperature_score
  rw [if_neg (by rintro ⟨u, v⟩; linarith), if_neg (by rintro ⟨u, v⟩; linarith),
    if_pos ⟨h1, h2⟩]

theorem temp_cool2 {t : ℚ} (h1 : 10 ≤ t) (h2 : t < 15) :
    normalize_temperature_score t = 90 - (15 - t) * 3 := by
  unfold normalize_temperature_score
  rw [if_neg (by rintro ⟨u, v⟩; linarith), if_neg (by rintro ⟨u, v⟩; linarith),
    if_neg (by rintro ⟨u, v⟩; linarith), if_pos ⟨h1, h2⟩]

theorem temp_warm2 {t : ℚ} (h1 : 50 < t) (h2 : t ≤ 60) :
    normalize_temperature_score t = 80 - (t - 50) * 3 := by
  unfold normalize_temperature_score
  rw [if_neg (by rintro ⟨u, v⟩; linarith), if_neg (by rintro ⟨u, v⟩; linarith),
    if_neg (by rintro ⟨u, v⟩; linarith), if_neg (by rintro ⟨u, v⟩; linarith),
    if_pos ⟨h1, h2⟩]

theorem temp_cool3 {t : ℚ} (h1 : 5 ≤ t) (h2 : t < 10) :
    normalize_temperature_score t = 75 - (10 - t) * 5 := by
  unfold normalize_temperature_score
  rw [if_neg (by rintro ⟨u, v⟩; linarith), if_neg (by rintro ⟨u, v⟩; linarith),
    if_neg (by rintro ⟨u, v⟩; linarith), if_neg (by rintro ⟨u, v⟩; linarith),
    if_neg (by rintro ⟨u, v⟩; linarith), if_pos ⟨h1, h2⟩]

theorem temp_warm3 {t : ℚ} (h1 : 60 < t) (h2 : t ≤ 70) :
    normalize_temperature_score t = 50 - (t - 60) * 5 := by
  unfold normalize_temperature_score
  rw [if_neg (by rintro ⟨u, v⟩; linarith), if_neg (by rintro ⟨u, v⟩; linarith),
    if_neg (by rintro ⟨u, v⟩; linarith), if_neg (by rintro ⟨u, v⟩; linarith),
    if_neg (by rintro ⟨u, v⟩; linarith), if_neg (by rintro ⟨u, v⟩; linarith),
    if_pos ⟨h1, h2⟩]

theorem temp_low {t : ℚ} (h : t < 5) :
    normalize_temperature_score t = max 0 (25 - (35 - t) * 0.5) := by
  unfold normalize_temperature_score
  rw [if_neg (by rintro ⟨u, v⟩; linarith), if_neg (by rintro ⟨u, v⟩; linarith),
    if_neg (by rintro ⟨u, v⟩; linarith), if_neg (by rintro ⟨u, v⟩; linarith),
    if_neg (by rintro ⟨u, v⟩; linarith), if_neg (by rintro ⟨u, v⟩; linarith),
    if_neg (by rintro ⟨u, v⟩; linarith), abs_of_nonpos (by linarith : t - 35 ≤ 0)]
  ring_nf

theorem temp_high {t : ℚ} (h : 70 < t) :
    normalize_temperature_score t = max 0 (25 - (t - 35) * 0.5) := by
  unfold normalize_temperature_score
  rw [if_neg (by rintro ⟨u, v⟩; linarith), if_neg (by rintro ⟨u, v⟩; linarith),
    if_neg (by rintro ⟨u, v⟩; linarith), if_neg (by rintro ⟨u, v⟩; linarith),
    if_neg (by rintro ⟨u, v⟩; linarith), if_neg (by rintro ⟨u, v⟩; linarith),
    if_neg (by rintro ⟨u, v⟩; linarith), abs_of_nonneg (by linarith : (0:ℚ) ≤ t - 35)]

theorem cpu_antitone : ∀ x y : ℚ, x ≤ y → normalize_cpu_score y ≤ normalize_cpu_score x := by
  intro x y hxy
  unfold normalize_cpu_score
  split_ifs <;>
    first
      | linarith
      | exact max_le (by linarith) (by linarith)
      | exact max_le (le_max_left _ _) (le_max_of_le_right (by linarith))

theorem ram_antitone : ∀ x y : ℚ, x ≤ y → normalize_ram_score y ≤ normalize_ram_score x := by
  intro x y hxy
  unfold normalize_ram_score
  split_ifs <;>
    first
      | linarith
      | exact max_le (by linarith) (by linarith)
      | exact max_le (le_max_left _ _) (le_max_of_le_right (by linarith))

theorem temp_mono_below : ∀ x y : ℚ, x ≤ y → y ≤ 20 →
    normalize_temperature_score x ≤ normalize_temperature_score y := by
  intro x y hxy hy
  rcases lt_or_le x 5 with hx1 | hx1
  · rw [temp_low hx1]
    rcases lt_or_le y 5 with hy1 | hy1
    · rw [temp_low hy1]
      exact max_le_max le_rfl (by linarith)
    · rcases lt_or_le y 10 with hy2 | hy2
      · rw [temp_cool3 hy1 hy2]; exact max_le (by linarith) (by linarith)
      · rcases lt_or_le y 15 with hy3 | hy3
        · rw [temp_cool2 hy2 hy3]; exact max_le (by linarith) (by linarith)
        · rcases lt_or_le y 20 with hy4 | hy4
          · rw [temp_cool1 hy3 hy4]; exact max_le (by linarith) (by linarith)
          · rw [temp_band hy4 (by linarith)]; exact max_le (by linarith) (by linarith)
  · rcases lt_or_le x 10 with hx2 | hx2
    · rw [temp_cool3 hx1 hx2]
      rcases lt_or_le y 10 with hy2 | hy2
      · rw [temp_cool3 (by linarith) hy2]; linarith
      · rcases lt_or_le y 15 with hy3 | hy3
        · rw [temp_cool2 hy2 hy3]; linarith
        · rcases lt_or_le y 20 with hy4 | hy4
          · rw [temp_cool1 hy3 hy4]; linarith
          · rw [temp_band hy4 (by linarith)]; linarith
    · rcases lt_or_le x 15 with hx3 | hx3
      · rw [temp_cool2 hx2 hx3]
        rcases lt_or_le y 15 with hy3 | hy3
        · rw [temp_cool2 (by linarith) hy3]; linarith
        · rcases lt_or_le y 20 with hy4 | hy4
          · rw [temp_cool1 hy3 hy4]; linarith
          · rw [temp_band hy4 (by linarith)]; linarith
      · rcases lt_or_le x 20 with hx4 | hx4
        · rw [temp_cool1 hx3 hx4]
          rcases lt_or_le y 20 with hy4 | hy4
          · rw [temp_cool1 (by linarith) hy4]; linarith
          · rw [temp_band hy4 (by linarith)]; linarith
        · rw [temp_band hx4 (by linarith), temp_band (by linarith) (by linarith)]

theorem temp_mono_mid : ∀ x y : ℚ, 40 ≤ x → x ≤ y → y ≤ 70 →
    normalize_temperature_score y ≤ normalize_temperature_score x := by
  intro x y hx40 hxy hy70
  rcases le_or_lt x 40 with hx | hx
  · have hx40' : x = 40 := le_antisymm hx hx40
    subst hx40'
    have h40 : normalize_temperature_score 40 = 100 := temp_band (by norm_num) (by norm_num)
    rw [h40]
    rcases le_or_lt y 40 with hy | hy
    · exact le_of_eq (temp_band (by linarith) hy)
    · rcases le_or_lt y 50 with hy1 | hy1
      · rw [temp_warm1 hy hy1]; linarith
      · rcases le_or_lt y 60 with hy2 | hy2
        · rw [temp_warm2 hy1 hy2]; linarith
        · rw [temp_warm3 hy2 hy70]; linarith
  · rcases le_or_lt x 50 with hx1 | hx1
    · rw [temp_warm1 hx hx1]
      rcases le_or_lt y 50 with hy1 | hy1
      · rw [temp_warm1 (by linarith) hy1]; linarith
      · rcases le_or_lt y 60 with hy2 | hy2
        · rw [temp_warm2 hy1 hy2]; linarith
        · rw [temp_warm3 hy2 hy70]; linarith
    · rcases le_or_lt x 60 with hx2 | hx2
      · rw [temp_warm2 hx1 hx2]
        rcases le_or_lt y 60 with hy2 | hy2
        · rw [temp_warm2 (by linarith) hy2]; linarith
        · rw [temp_warm3 hy2 hy70]; linarith
      · rw [temp_warm3 hx2 (by linarith), temp_warm3 (by linarith) hy70]; linarith

theorem temp_mono_high : ∀ x y : ℚ, 70 < x → x ≤ y →
    normalize_temperature_score y ≤ normalize_temperature_score x := by
  intro x y hx hxy
  rw [temp_high hx, temp_high (by linarith)]
  exact max_le_max le_rfl (by linarith)

theorem temp_zero_cold {t : ℚ} (h : t ≤ -15) : normalize_temperature_score t = 0 := by
  rw [temp_low (by linarith)]
  exact max_eq_left (by linarith)

theorem temp_zero_hot {t : ℚ} (h : 85 ≤ t) : normalize_temperature_score t = 0 := by
  rw [temp_high (by linarith)]
  exact max_eq_left (by linarith)

/-! ## Helper lemmas: rounding -/

theorem roundHalfEven_bounds {y : ℚ} (h0 : 0 ≤ y) (h1 : y ≤ 10000) :
    0 ≤ roundHalfEven y ∧ roundHalfEven y ≤ 10000 := by
  have hfl : (0:ℤ) ≤ ⌊y⌋ := Int.le_floor.mpr (by exact_mod_cast h0)
  have hfu : ⌊y⌋ ≤ 10000 := by
    have h2 : (↑⌊y⌋ : ℚ) ≤ 10000 := le_trans (Int.floor_le y) h1
    exact_mod_cast h2
  unfold roundHalfEven
  split_ifs with hf he
  · exact ⟨hfl, hfu⟩
  · constructor
    · omega
    · have hfr : (↑⌊y⌋ : ℚ) + 1/2 = y := by
        have h3 := Int.floor_add_fract y
        rw [hf] at h3
        linarith
      have h4 : (↑⌊y⌋ : ℚ) < 10000 := by linarith
      have h5 : ⌊y⌋ < 10000 := by exact_mod_cast h4
      omega
  · rw [round_eq]
    constructor
    · exact Int.le_floor.mpr (by push_cast; linarith)
    · have h6 : (↑⌊y + 1/2⌋ : ℚ) ≤ y + 1/2 := Int.floor_le _
      have h7 : (↑⌊y + 1/2⌋ : ℚ) < 10001 := by linarith
      have h8 : ⌊y + 1/2⌋ < 10001 := by exact_mod_cast h7
      omega

theorem round2_bounds {x : ℚ} (h0 : 0 ≤ x) (h1 : x ≤ 100) :
    0 ≤ round2 x ∧ round2 x ≤ 100 := by
  have h := @roundHalfEven_bounds (x * 100) (by linarith) (by linarith)
  unfold round2
  constructor
  · apply div_nonneg _ (by norm_num)
    exact_mod_cast h.1
  · rw [div_le_iff₀ (by norm_num : (0:ℚ) < 100)]
    have h2 : (↑(roundHalfEven (x * 100)) : ℚ) ≤ 10000 := by exact_mod_cast h.2
    linarith

/-! ## Claims C3, C7, C8 -/

/-- Claim C3: `calculate_health_score` is total — in this rational model every
operation of its body is total, so the `except → return 0.0` branch is dead
code — and for every input tuple, weights included, the result lies in
[0, 100] and is an exact multiple of 1/100 (rounded to 2 decimals). -/
theorem C3_health_score_total_and_range (cpu_usage ram_usage temperature free_disk_space : ℚ)
    (connectivity : Bool) (weights : HealthScoreWeights) :
    0 ≤ calculate_health_score cpu_usage ram_usage temperature free_disk_space connectivity weights ∧
    calculate_health_score cpu_usage ram_usage temperature free_disk_space connectivity weights ≤ 100 ∧
    ∃ n : ℤ, calculate_health_score cpu_usage ram_usage temperature free_disk_space connectivity
      weights = (n : ℚ) / 100 :=
  ⟨(round2_bounds (le_max_left _ _) (max_le (by norm_num) (min_le_left _ _))).1,
   (round2_bounds (le_max_left _ _) (max_le (by norm_num) (min_le_left _ _))).2,
   _, rfl⟩

/-- Witness for C3 at the spec's critical scenario input. -/
theorem C3_witness :
    0 ≤ calculate_health_score 90 95 80 5 false defaultWeights ∧
    calculate_health_score 90 95 80 5 false defaultWeights ≤ 100 ∧
    ∃ n : ℤ, calculate_health_score 90 95 80 5 false defaultWeights = (n : ℚ) / 100 :=
  C3_health_score_total_and_range 90 95 80 5 false defaultWeights

/-- Claim C7 counterexample: the claim asserts the temperature score is
monotonically non-increasing above the band and stays at 0 past extreme
values, but the code's fall-back branch `max(0, 25 - abs(t - 35) * 0.5)`
makes the score jump from 0 at 70°C back up to 7 at 71°C. -/
theorem C7_counterexample :
    (40:ℚ) ≤ 70 ∧ (70:ℚ) ≤ 71 ∧
    normalize_temperature_score 70 = 0 ∧ normalize_temperature_score 71 = 7 ∧
    ¬ normalize_temperature_score 71 ≤ normalize_temperature_score 70 := by
  norm_num [normalize_temperature_score]

/-- Claim C7 (amended): `normalize_temperature_score` returns 100 on the
20-40°C band; below the band it is non-increasing as the temperature shrinks,
reaching 0 for every temperature ≤ −15°C; above the band it is non-increasing
on (40, 70], reaching 0 at 70°C, but at temperatures just above 70°C the
fall-back branch scores positive again (up to 7.5), and only from that point
on is it non-increasing once more, staying at 0 for every temperature ≥ 85°C. -/
theorem C7_temperature_shape_amended :
    (∀ t : ℚ, 20 ≤ t → t ≤ 40 → normalize_temperature_score t = 100) ∧
    (∀ x y : ℚ, x ≤ y → y ≤ 20 →
      normalize_temperature_score x ≤ normalize_temperature_score y) ∧
    (∀ t : ℚ, t ≤ -15 → normalize_temperature_score t = 0) ∧
    (∀ x y : ℚ, 40 ≤ x → x ≤ y → y ≤ 70 →
      normalize_temperature_score y ≤ normalize_temperature_score x) ∧
    normalize_temperature_score 70 = 0 ∧
    (∀ x y : ℚ, 70 < x → x ≤ y →
      normalize_temperature_score y ≤ normalize_temperature_score x) ∧
    (∀ t : ℚ, 85 ≤ t → normalize_temperature_score t = 0) :=
  ⟨fun _ h1 h2 => temp_band h1 h2, temp_mono_below, fun _ h => temp_zero_cold h,
   temp_mono_mid, by norm_num [normalize_temperature_score], temp_mono_high,
   fun _ h => temp_zero_hot h⟩

/-- Witness for the amended C7 at concrete temperatures. -/
theorem C7_witness :
    normalize_temperature_score 30 = 100 ∧
    normalize_temperature_score 10 ≤ normalize_temperature_score 15 ∧
    normalize_temperature_score (-20) = 0 ∧
    normalize_temperature_score 65 ≤ normalize_temperature_score 45 ∧
    normalize_temperature_score 90 ≤ normalize_temperature_score 80 ∧
    normalize_temperature_score 100 = 0 :=
  ⟨C7_temperature_shape_amended.1 30 (by norm_num) (by norm_num),
   C7_temperature_shape_amended.2.1 10 15 (by norm_num) (by norm_num),
   C7_temperature_shape_amended.2.2.1 (-20) (by norm_num),
   C7_temperature_shape_amended.2.2.2.1 45 65 (by norm_num) (by norm_num) (by norm_num),
   C7_temperature_shape_amended.2.2.2.2.2.1 80 90 (by norm_num) (by norm_num),
   C7_temperature_shape_amended.2.2.2.2.2.2 100 (by norm_num)⟩

/-- Claim C8: exact breakpoints of `normalize_cpu_score` (100 at 0 and 20,
55 at 50, 25 at 80, 0 at 100) and of `normalize_ram_score` (100 up to 30,
64 at 60, 39 at 85, 0 at 100), the linear formula on every segment between
the breakpoints, and monotone non-increase of both curves over the whole
domain. -/
theorem C8_cpu_ram_normalization :
    (normalize_cpu_score 0 = 100 ∧ normalize_cpu_score 20 = 100 ∧
      normalize_cpu_score 50 = 55 ∧ normalize_cpu_score 80 = 25 ∧
      normalize_cpu_score 100 = 0) ∧
    ((∀ x : ℚ, x ≤ 20 → normalize_cpu_score x = 100) ∧
      (∀ x : ℚ, 20 < x → x ≤ 50 → normalize_cpu_score x = 100 - (x - 20) * 1.5) ∧
      (∀ x : ℚ, 50 < x → x ≤ 80 → normalize_cpu_score x = 55 - (x - 50) * 1) ∧
      (∀ x : ℚ, 80 < x → x ≤ 100 → normalize_cpu_score x = 25 - (x - 80) * 1.25)) ∧
    (∀ x y : ℚ, x ≤ y → normalize_cpu_score y ≤ normalize_cpu_score x) ∧
    (normalize_ram_score 0 = 100 ∧ normalize_ram_score 30 = 100 ∧
      normalize_ram_score 60 = 64 ∧ normalize_ram_score 85 = 39 ∧
      normalize_ram_score 100 = 0) ∧
    ((∀ x : ℚ, x ≤ 30 → normalize_ram_score x = 100) ∧
      (∀ x : ℚ, 30 < x → x ≤ 60 → normalize_ram_score x = 100 - (x - 30) * 1.2) ∧
      (∀ x : ℚ, 60 < x → x ≤ 85 → normalize_ram_score x = 64 - (x - 60) * 1) ∧
      (∀ x : ℚ, 85 < x → x ≤ 100 → normalize_ram_score x = 39 - (x - 85) * 2.6)) ∧
    (∀ x y : ℚ, x ≤ y → normalize_ram_score y ≤ normalize_ram_score x) := by
  refine ⟨⟨?_, ?_, ?_, ?_, ?_⟩,
    ⟨fun x h => cpu_seg1 h, fun x h1 h2 => cpu_seg2 h1 h2, fun x h1 h2 => cpu_seg3 h1 h2, ?_⟩,
    cpu_antitone,
    ⟨?_, ?_, ?_, ?_, ?_⟩,
    ⟨fun x h => ram_seg1 h, fun x h1 h2 => ram_seg2 h1 h2, fun x h1 h2 => ram_seg3 h1 h2, ?_⟩,
    ram_antitone⟩ <;>
  first
    | (intro x h1 h2
       rw [cpu_seg4 h1]
       exact max_eq_right (by linarith))
    | (intro x h1 h2
       rw [ram_seg4 h1]
       exact max_eq_right (by linarith))
    | norm_num [normalize_cpu_score, normalize_ram_score]

/-- Witness for C8 at concrete usage percentages. -/
theorem C8_witness :
    normalize_cpu_score 10 = 100 ∧
    normalize_cpu_score 30 = 100 - (30 - 20) * 1.5 ∧
    normalize_cpu_score 60 ≤ normalize_cpu_score 40 ∧
    normalize_ram_score 10 = 100 ∧
    normalize_ram_score 90 ≤ normalize_ram_score 40 :=
  ⟨C8_cpu_ram_normalization.2.1.1 10 (by norm_num),
   C8_cpu_ram_normalization.2.1.2.1 30 (by norm_num) (by norm_num),
   C8_cpu_ram_normalization.2.2.1 40 60 (by norm_num),
   C8_cpu_ram_normalization.2.2.2.2.1.1 10 (by norm_num),
   C8_cpu_ram_normalization.2.2.2.2.2 40 90 (by norm_num)⟩

/-! ## Helper lemmas: alert rule evaluation -/

theorem evaluate_conditions_eq (a : Alert) (hb : Heartbeat) :
    evaluate_conditions a hb =
      (a.is_active && !a.conditions.isEmpty && a.conditions.all (checkCondition hb)) := by
  unfold evaluate_conditions
  cases hA : a.is_active <;> cases hE : a.conditions.isEmpty <;> simp [hA, hE]

theorem eval_conditions_active {a : Alert} {hb : Heartbeat}
    (h : evaluate_conditions a hb = true) : a.is_active = true := by
  rw [evaluate_conditions_eq] at h
  simp only [Bool.and_eq_true] at h
  exact h.1.1

theorem checkCondition_known {hb : Heartbeat} {c : AlertCondition} (h : c.operator ∈ knownOps) :
    checkCondition hb c = (hb.lookup c.metric).all fun v => opHolds c.operator v c.value := by
  unfold checkCondition opHolds
  cases hl : hb.lookup c.metric with
  | none => rfl
  | some v =>
    simp only [knownOps, List.mem_cons, List.not_mem_nil, or_false] at h
    rcases h with h | h | h | h | h | h <;> simp [h]

theorem checkCondition_unknown {hb : Heartbeat} {c : AlertCondition} (h : c.operator ∉ knownOps) :
    checkCondition hb c = true := by
  unfold checkCondition
  cases hl : hb.lookup c.metric with
  | none => rfl
  | some v =>
    simp only [knownOps, List.mem_cons, List.not_mem_nil, or_false, not_or] at h
    obtain ⟨h1, h2, h3, h4, h5, h6⟩ := h
    simp [h1, h2, h3, h4, h5, h6]

theorem step_fired (now : ℚ) (hb : Heartbeat) (a : Alert) :
    (evaluateAlertStep now hb a).2 = (evaluate_conditions a hb && !is_triggered a now) := by
  unfold evaluateAlertStep
  cases h1 : evaluate_conditions a hb <;> cases h2 : is_triggered a now <;> simp [h1, h2]

theorem step_state (now : ℚ) (hb : Heartbeat) (a : Alert) :
    (evaluateAlertStep now hb a).1 =
      (if (evaluateAlertStep now hb a).2 then a.trigger now else a) := by
  unfold evaluateAlertStep
  cases h1 : evaluate_conditions a hb <;> cases h2 : is_triggered a now <;> simp [h1, h2]

theorem evalLoop_notif_length (now : ℚ) (hb : Heartbeat) (l : List Alert) :
    (evalLoop now hb l).2.2 = (evalLoop now hb l).2.1.length := by
  induction l with
  | nil => rfl
  | cons a rest ih =>
    simp only [evalLoop]
    cases h : (evaluateAlertStep now hb a).2 <;> simp [h, ih, Nat.add_comm]

theorem eval_conditions_trigger (a : Alert) (t : ℚ) (hb : Heartbeat) :
    evaluate_conditions (a.trigger t) hb = evaluate_conditions a hb := rfl

theorem edge_trigger_episode (a : Alert) (hb₁ hb₂ hb₃ : Heartbeat) (t₀ t₁ t₂ : ℚ)
    (hnt : is_triggered a t₀ = false)
    (h1 : evaluate_conditions a hb₁ = true)
    (h2 : evaluate_conditions a hb₂ = true)
    (h3 : evaluate_conditions a hb₃ = true)
    (hwin : t₁ - a.duration_minutes < t₀)
    (hexp : t₀ ≤ t₂ - a.duration_minutes) :
    evaluate_device_alerts t₀ hb₁ [a] = ([a.trigger t₀], [a.trigger t₀], 1) ∧
    evaluate_device_alerts t₁ hb₂ [a.trigger t₀] = ([a.trigger t₀], [], 0) ∧
    evaluate_device_alerts t₂ hb₃ [a.trigger t₀] =
      ([(a.trigger t₀).trigger t₂], [(a.trigger t₀).trigger t₂], 1) ∧
    ((a.trigger t₀).trigger t₂).trigger_count = a.trigger_count + 2 := by
  have ha : a.is_active = true := eval_conditions_active h1
  have ha' : (a.trigger t₀).is_active = true := ha
  have h2' : evaluate_conditions (a.trigger t₀) hb₂ = true := h2
  have h3' : evaluate_conditions (a.trigger t₀) hb₃ = true := h3
  have htrig : is_triggered (a.trigger t₀) t₁ = true := by
    show decide (t₀ > t₁ - a.duration_minutes) = true
    exact decide_eq_true (by linarith)
  have hntrig : is_triggered (a.trigger t₀) t₂ = false := by
    show decide (t₀ > t₂ - a.duration_minutes) = false
    exact decide_eq_false (by linarith)
  refine ⟨?_, ?_, ?_, rfl⟩
  · simp [evaluate_device_alerts, List.filter, ha, evalLoop, evaluateAlertStep, h1, hnt]
  · simp [evaluate_device_alerts, List.filter, ha', evalLoop, evaluateAlertStep, h2', htrig]
  · simp [evaluate_device_alerts, List.filter, ha', evalLoop, evaluateAlertStep, h3', hntrig]

/-! ## Claims C1, C4, C5, C10 -/

/-- Claim C1: the evaluation engine is edge-triggered.  Part one: a rule fires
on a heartbeat exactly when its conditions hold (which includes being active
and having conditions) and it is not already inside its debounce window, and
firing stamps `last_triggered` and increments `trigger_count` by exactly one
while a non-firing rule is left unchanged.  Part two: the engine emits exactly
one notification per newly triggered rule.  Part three: two
condition-satisfying heartbeats inside one debounce window yield exactly one
notification and one increment, and a third satisfying heartbeat after the
window expires yields a second notification and a second increment. -/
theorem C1_edge_triggered_evaluation :
    (∀ (now : ℚ) (hb : Heartbeat) (a : Alert),
      (evaluateAlertStep now hb a).2 = (evaluate_conditions a hb && !is_triggered a now) ∧
      ((evaluateAlertStep now hb a).2 = true →
        (evaluateAlertStep now hb a).1 = a.trigger now ∧
        (evaluateAlertStep now hb a).1.trigger_count = a.trigger_count + 1 ∧
        (evaluateAlertStep now hb a).1.last_triggered = some now) ∧
      ((evaluateAlertStep now hb a).2 = false → (evaluateAlertStep now hb a).1 = a)) ∧
    (∀ (now : ℚ) (hb : Heartbeat) (alerts : List Alert),
      (evaluate_device_alerts now hb alerts).2.2 =
        (evaluate_device_alerts now hb alerts).2.1.length) ∧
    (∀ (a : Alert) (hb₁ hb₂ hb₃ : Heartbeat) (t₀ t₁ t₂ : ℚ),
      is_triggered a t₀ = false →
      evaluate_conditions a hb₁ = true →
      evaluate_conditions a hb₂ = true →
      evaluate_conditions a hb₃ = true →
      t₁ - a.duration_minutes < t₀ →
      t₀ ≤ t₂ - a.duration_minutes →
      evaluate_device_alerts t₀ hb₁ [a] = ([a.trigger t₀], [a.trigger t₀], 1) ∧
      evaluate_device_alerts t₁ hb₂ [a.trigger t₀] = ([a.trigger t₀], [], 0) ∧
      evaluate_device_alerts t₂ hb₃ [a.trigger t₀] =
        ([(a.trigger t₀).trigger t₂], [(a.trigger t₀).trigger t₂], 1) ∧
      ((a.trigger t₀).trigger t₂).trigger_count = a.trigger_count + 2) := by
  refine ⟨?_, ?_, ?_⟩
  · intro now hb a
    refine ⟨step_fired now hb a, ?_, ?_⟩
    · intro h
      have hs := step_state now hb a
      rw [h] at hs
      simp only [if_true] at hs
      exact ⟨hs, by rw [hs]; rfl, by rw [hs]; rfl⟩
    · intro h
      have hs := step_state now hb a
      rw [h] at hs
      simpa using hs
  · intro now hb alerts
    exact evalLoop_notif_length now hb (alerts.filter (fun a => a.is_active))
  · intro a hb₁ hb₂ hb₃ t₀ t₁ t₂ hnt h1 h2 h3 hwin hexp
    exact edge_trigger_episode a hb₁ hb₂ hb₃ t₀ t₁ t₂ hnt h1 h2 h3 hwin hexp

/-- Witness for C1: a concrete cpu-threshold rule with a 5-minute window,
heartbeats at minute 0, one second later (minute 1/60) and minute 6. -/
theorem C1_witness :
    evaluate_device_alerts 0 [("cpu_usage", 95)]
        [(⟨"a1", "cpu high", "", "d1", [⟨"cpu_usage", ">", 90⟩], 5, true, none, 0⟩ : Alert)] =
      ([(⟨"a1", "cpu high", "", "d1", [⟨"cpu_usage", ">", 90⟩], 5, true, some 0, 1⟩ : Alert)],
        [(⟨"a1", "cpu high", "", "d1", [⟨"cpu_usage", ">", 90⟩], 5, true, some 0, 1⟩ : Alert)], 1) ∧
    evaluate_device_alerts (1/60) [("cpu_usage", 95)]
        [(⟨"a1", "cpu high", "", "d1", [⟨"cpu_usage", ">", 90⟩], 5, true, some 0, 1⟩ : Alert)] =
      ([(⟨"a1", "cpu high", "", "d1", [⟨"cpu_usage", ">", 90⟩], 5, true, some 0, 1⟩ : Alert)],
        [], 0) ∧
    evaluate_device_alerts 6 [("cpu_usage", 95)]
        [(⟨"a1", "cpu high", "", "d1", [⟨"cpu_usage", ">", 90⟩], 5, true, some 0, 1⟩ : Alert)] =
      ([(⟨"a1", "cpu high", "", "d1", [⟨"cpu_usage", ">", 90⟩], 5, true, some 6, 2⟩ : Alert)],
        [(⟨"a1", "cpu high", "", "d1", [⟨"cpu_usage", ">", 90⟩], 5, true, some 6, 2⟩ : Alert)],
        1) ∧
    Alert.trigger_count
        (⟨"a1", "cpu high", "", "d1", [⟨"cpu_usage", ">", 90⟩], 5, true, some 6, 2⟩ : Alert) =
      0 + 2 :=
  C1_edge_triggered_evaluation.2.2
    (⟨"a1", "cpu high", "", "d1", [⟨"cpu_usage", ">", 90⟩], 5, true, none, 0⟩ : Alert)
    [("cpu_usage", 95)] [("cpu_usage", 95)] [("cpu_usage", 95)] 0 (1/60) 6
    rfl (by decide) (by decide) (by decide) (by norm_num) (by norm_num)

/-- Claim C4: `evaluate_conditions` returns false whenever the rule is
inactive or has no conditions; otherwise (for conditions whose operators are
among the six comparison operators) it returns true iff every condition whose
metric is present in the heartbeat holds under its comparison operator
against the heartbeat's value, conditions on absent metrics being vacuously
satisfied (`Option.all` is true on `none`). -/
theorem C4_evaluate_semantics (a : Alert) (hb : Heartbeat)
    (hops : ∀ c ∈ a.conditions, c.operator ∈ knownOps) :
    (a.is_active = false → evaluate_conditions a hb = false) ∧
    (a.conditions = [] → evaluate_conditions a hb = false) ∧
    (evaluate_conditions a hb = true ↔
      (a.is_active = true ∧ a.conditions ≠ [] ∧
        ∀ c ∈ a.conditions,
          ((hb.lookup c.metric).all fun v => opHolds c.operator v c.value) = true)) := by
  refine ⟨?_, ?_, ?_⟩
  · intro h
    rw [evaluate_conditions_eq, h]
    simp
  · intro h
    rw [evaluate_conditions_eq, h]
    simp
  · rw [evaluate_conditions_eq]
    simp only [Bool.and_eq_true, Bool.not_eq_true', List.all_eq_true]
    constructor
    · rintro ⟨⟨hA, hE⟩, hall⟩
      refine ⟨hA, ?_, ?_⟩
      · intro hnil
        rw [hnil] at hE
        simp at hE
      · intro c hc
        rw [← checkCondition_known (hops c hc)]
        exact hall c hc
    · rintro ⟨hA, hE, hall⟩
      refine ⟨⟨hA, ?_⟩, ?_⟩
      · cases hc : a.conditions with
        | nil => exact absurd hc hE
        | cons c cs => rfl
      · intro c hc
        rw [checkCondition_known (hops c hc)]
        exact hall c hc

/-- Witness for C4: a rule whose cpu condition holds on the heartbeat and
whose ram condition references a metric absent from the heartbeat (skipped)
evaluates to true. -/
theorem C4_witness :
    evaluate_conditions
      (⟨"a1", "nm", "", "d1", [⟨"cpu_usage", ">", 90⟩, ⟨"ram_usage", "<=", 50⟩],
        5, true, none, 0⟩ : Alert)
      [("cpu_usage", 95)] = true :=
  (C4_evaluate_semantics
      (⟨"a1", "nm", "", "d1", [⟨"cpu_usage", ">", 90⟩, ⟨"ram_usage", "<=", 50⟩],
        5, true, none, 0⟩ : Alert)
      [("cpu_usage", 95)] (by decide)).2.2.mpr ⟨rfl, by decide, by decide⟩

/-- Claim C5: `reset` clears `last_triggered` to null and changes no other
field (in particular `trigger_count` is unchanged); after a reset the rule is
immediately not triggered at any instant, and a subsequent
condition-satisfying heartbeat fires the rule again at any instant, including
instants that were still inside the original debounce window. -/
theorem C5_reset_frame (a : Alert) (now : ℚ) :
    a.reset.last_triggered = none ∧
    a.reset.trigger_count = a.trigger_count ∧
    a.reset.id = a.id ∧
    a.reset.name = a.name ∧
    a.reset.description = a.description ∧
    a.reset.device_id = a.device_id ∧
    a.reset.conditions = a.conditions ∧
    a.reset.duration_minutes = a.duration_minutes ∧
    a.reset.is_active = a.is_active ∧
    is_triggered a.reset now = false ∧
    (∀ hb : Heartbeat, evaluate_conditions a hb = true →
      (evaluateAlertStep now hb a.reset).2 = true) := by
  refine ⟨rfl, rfl, rfl, rfl, rfl, rfl, rfl, rfl, rfl, rfl, ?_⟩
  intro hb h
  have h1 : evaluate_conditions a.reset hb = true := h
  have h2 : is_triggered a.reset now = false := rfl
  simp [evaluateAlertStep, h1, h2]

/-- Witness for C5: a rule last triggered at minute 3 with a 5-minute window
is reset and immediately re-fires at minute 4, inside the original window;
its trigger count of 7 is kept. -/
theorem C5_witness :
    Alert.last_triggered
        (Alert.reset (⟨"a1", "nm", "", "d1", [⟨"cpu_usage", ">", 90⟩],
          5, true, some 3, 7⟩ : Alert)) = none ∧
    Alert.trigger_count
        (Alert.reset (⟨"a1", "nm", "", "d1", [⟨"cpu_usage", ">", 90⟩],
          5, true, some 3, 7⟩ : Alert)) = 7 ∧
    is_triggered
        (Alert.reset (⟨"a1", "nm", "", "d1", [⟨"cpu_usage", ">", 90⟩],
          5, true, some 3, 7⟩ : Alert)) 4 = false ∧
    (evaluateAlertStep 4 [("cpu_usage", 95)]
        (Alert.reset (⟨"a1", "nm", "", "d1", [⟨"cpu_usage", ">", 90⟩],
          5, true, some 3, 7⟩ : Alert))).2 = true :=
  ⟨(C5_reset_frame (⟨"a1", "nm", "", "d1", [⟨"cpu_usage", ">", 90⟩],
      5, true, some 3, 7⟩ : Alert) 4).1,
   (C5_reset_frame (⟨"a1", "nm", "", "d1", [⟨"cpu_usage", ">", 90⟩],
      5, true, some 3, 7⟩ : Alert) 4).2.1,
   (C5_reset_frame (⟨"a1", "nm", "", "d1", [⟨"cpu_usage", ">", 90⟩],
      5, true, some 3, 7⟩ : Alert) 4).2.2.2.2.2.2.2.2.2.1,
   (C5_reset_frame (⟨"a1", "nm", "", "d1", [⟨"cpu_usage", ">", 90⟩],
      5, true, some 3, 7⟩ : Alert) 4).2.2.2.2.2.2.2.2.2.2
     [("cpu_usage", 95)] (by decide)⟩

/-- Claim C10: a condition whose operator is not one of the six comparison
operators falls through every branch of the per-condition loop and is
treated as satisfied, even when its metric is present in the heartbeat; as a
consequence `evaluate_conditions` can only return false because the rule is
inactive, has no conditions, or some condition with a recognized operator
and a present metric fails its comparison. -/
theorem C10_unknown_operator_vacuous (a : Alert) (hb : Heartbeat) :
    (∀ c ∈ a.conditions, c.operator ∉ knownOps → checkCondition hb c = true) ∧
    (evaluate_conditions a hb = false →
      a.is_active = false ∨ a.conditions = [] ∨
      ∃ c ∈ a.conditions, c.operator ∈ knownOps ∧
        ∃ v, hb.lookup c.metric = some v ∧ opHolds c.operator v c.value = false) := by
  constructor
  · intro c _ h
    exact checkCondition_unknown h
  · intro h
    rw [evaluate_conditions_eq] at h
    by_cases hA : a.is_active = true
    case neg =>
      left
      simpa using hA
    by_cases hE : a.conditions = []
    · right; left; exact hE
    · right; right
      have hE2 : a.conditions.isEmpty = false := by
        cases hc : a.conditions with
        | nil => exact absurd hc hE
        | cons c cs => rfl
      rw [hA, hE2] at h
      simp only [Bool.not_false, Bool.true_and] at h
      obtain ⟨c, hc, hfalse⟩ : ∃ c ∈ a.conditions, checkCondition hb c = false := by
        rcases List.all_eq_false.mp h with ⟨c, hc, hcf⟩
        exact ⟨c, hc, by simpa using hcf⟩
      by_cases hop : c.operator ∈ knownOps
      · refine ⟨c, hc, hop, ?_⟩
        rw [checkCondition_known hop] at hfalse
        cases hl : hb.lookup c.metric with
        | none =>
          rw [hl] at hfalse
          simp at hfalse
        | some v =>
          rw [hl] at hfalse
          simp only [Option.all_some] at hfalse
          exact ⟨v, rfl, hfalse⟩
      · rw [checkCondition_unknown hop] at hfalse
        exact Bool.noConfusion hfalse

/-- Witness for C10: the unrecognized operator string "contains" on a metric
that is present in the heartbeat is treated as satisfied. -/
theorem C10_witness :
    checkCondition [("cpu_usage", 95)]
      (⟨"cpu_usage", "contains", 90⟩ : AlertCondition) = true :=
  (C10_unknown_operator_vacuous
      (⟨"a1", "nm", "", "d1", [⟨"cpu_usage", "contains", 90⟩], 5, true, none, 0⟩ : Alert)
      [("cpu_usage", 95)]).1
    (⟨"cpu_usage", "contains", 90⟩ : AlertCondition) (by decide) (by decide)

/-! ## Helper lemmas: connection registry -/

theorem lookup_setEntry_self (k : String) (v : List Conn) (mp : ConnMap) :
    (setEntry k v mp).lookup k = some v := by
  induction mp with
  | nil => simp [setEntry]
  | cons kv rest ih =>
    obtain ⟨k', v'⟩ := kv
    by_cases h : k' = k
    · simp [setEntry, h]
    · have hx : (k == k') = false := beq_eq_false_iff_ne.mpr (fun he => h he.symm)
      simp [setEntry, h, List.lookup, hx, ih]

theorem lookup_setEntry_ne {k k' : String} (hne : k' ≠ k) (v : List Conn) (mp : ConnMap) :
    (setEntry k v mp).lookup k' = mp.lookup k' := by
  induction mp with
  | nil =>
    have hx : (k' == k) = false := beq_eq_false_iff_ne.mpr hne
    simp [setEntry, List.lookup, hx]
  | cons kv rest ih =>
    obtain ⟨k0, v0⟩ := kv
    by_cases h : k0 = k
    · subst h
      have hx : (k' == k0) = false := beq_eq_false_iff_ne.mpr hne
      simp [setEntry, List.lookup, hx]
    · cases hb : k' == k0 <;> simp [setEntry, h, List.lookup, hb, ih]

theorem mem_setEntry {k : String} {v : List Conn} {mp : ConnMap} {kv : String × List Conn}
    (h : kv ∈ setEntry k v mp) : kv = (k, v) ∨ kv ∈ mp := by
  induction mp with
  | nil => simpa [setEntry] using h
  | cons kv' rest ih =>
    obtain ⟨k', v'⟩ := kv'
    by_cases hk : k' = k
    · simp [setEntry, hk] at h
      rcases h with h | h
      · left; simp [h]
      · right; exact List.mem_cons_of_mem _ h
    · simp [setEntry, hk] at h
      rcases h with h | h
      · right; simp [h]
      · rcases ih h with h' | h'
        · left; exact h'
        · right; exact List.mem_cons_of_mem _ h'

theorem mem_delEntry {k : String} {mp : ConnMap} {kv : String × List Conn}
    (h : kv ∈ delEntry k mp) : kv ∈ mp := by
  induction mp with
  | nil => simp [delEntry] at h
  | cons kv' rest ih =>
    obtain ⟨k', v'⟩ := kv'
    by_cases hk : k' = k
    · simp [delEntry, hk] at h
      exact List.mem_cons_of_mem _ h
    · simp [delEntry, hk] at h
      rcases h with h | h
      · simp [h]
      · exact List.mem_cons_of_mem _ (ih h)

theorem count_foldl_erase (c : Conn) :
    ∀ (ds l : List Conn), ((ds.foldl List.erase l).count c) = l.count c - ds.count c := by
  intro ds
  induction ds with
  | nil => intro l; simp
  | cons d ds ih =>
    intro l
    simp only [List.foldl_cons, ih]
    by_cases h : d = c
    · subst h
      rw [List.count_erase_self, List.count_cons_self]
      omega
    · rw [List.count_erase_of_ne (Ne.symm h), List.count_cons_of_ne (Ne.symm h)]

theorem not_mem_foldl_erase_filter {dead : Conn → Bool} {c : Conn} (hc : dead c = true)
    (conns : List Conn) : c ∉ (conns.filter dead).foldl List.erase conns := by
  rw [← List.count_eq_zero, count_foldl_erase, List.count_filter hc]
  omega

theorem broadcast_device_prunes (dead : Conn → Bool) (k : String) (m : ConnectionManager) :
    (broadcast_to_device dead k m).1.user_connections = m.user_connections ∧
    (∀ k' : String, k' ≠ k →
      ((broadcast_to_device dead k m).1.active_connections.lookup k') =
        m.active_connections.lookup k') ∧
    (∀ c : Conn, dead c = true →
      c ∉ (((broadcast_to_device dead k m).1.active_connections.lookup k).getD [])) := by
  unfold broadcast_to_device
  cases hl : m.active_connections.lookup k with
  | none =>
    refine ⟨rfl, fun k' _ => rfl, ?_⟩
    intro c _
    rw [hl]
    simp
  | some conns =>
    refine ⟨rfl, ?_, ?_⟩
    · intro k' hk'
      exact lookup_setEntry_ne hk' _ _
    · intro c hc
      rw [lookup_setEntry_self]
      simpa using not_mem_foldl_erase_filter hc conns

theorem broadcast_user_prunes (dead : Conn → Bool) (k : String) (m : ConnectionManager) :
    (broadcast_to_user dead k m).1.active_connections = m.active_connections ∧
    (∀ k' : String, k' ≠ k →
      ((broadcast_to_user dead k m).1.user_connections.lookup k') =
        m.user_connections.lookup k') ∧
    (∀ c : Conn, dead c = true →
      c ∉ (((broadcast_to_user dead k m).1.user_connections.lookup k).getD [])) := by
  unfold broadcast_to_user
  cases hl : m.user_connections.lookup k with
  | none =>
    refine ⟨rfl, fun k' _ => rfl, ?_⟩
    intro c _
    rw [hl]
    simp
  | some conns =>
    refine ⟨rfl, ?_, ?_⟩
    · intro k' hk'
      exact lookup_setEntry_ne hk' _ _
    · intro c hc
      rw [lookup_setEntry_self]
      simpa using not_mem_foldl_erase_filter hc conns

theorem setEntry_append_noEmpty {mp : ConnMap} (hmp : ∀ kv ∈ mp, kv.2 ≠ [])
    (k : String) (ws : Conn) :
    ∀ kv ∈ setEntry k (((mp.lookup k).getD []) ++ [ws]) mp, kv.2 ≠ [] := by
  intro kv hkv
  rcases mem_setEntry hkv with h | h
  · rw [h]
    simp
  · exact hmp kv h

theorem connect_noEmpty (ws : Conn) (d u : Option String) (m : ConnectionManager)
    (h : noEmptyKeys m) : noEmptyKeys (connect ws d u m) := by
  obtain ⟨h1, h2⟩ := h
  unfold connect
  cases d with
  | none =>
    cases u with
    | none => exact ⟨h1, h2⟩
    | some u' => exact ⟨h1, setEntry_append_noEmpty h2 u' ws⟩
  | some d' =>
    cases u with
    | none => exact ⟨setEntry_append_noEmpty h1 d' ws, h2⟩
    | some u' => exact ⟨setEntry_append_noEmpty h1 d' ws, setEntry_append_noEmpty h2 u' ws⟩

theorem disconnectMap_noEmpty {mp : ConnMap} (hmp : ∀ kv ∈ mp, kv.2 ≠ [])
    (ws : Conn) (k : String) : ∀ kv ∈ disconnectMap ws k mp, kv.2 ≠ [] := by
  intro kv hkv
  unfold disconnectMap at hkv
  cases hl : mp.lookup k with
  | none =>
    rw [hl] at hkv
    exact hmp kv hkv
  | some conns =>
    rw [hl] at hkv
    have hkv2 : kv ∈ (if removeIfMember ws conns = [] then delEntry k mp
        else setEntry k (removeIfMember ws conns) mp) := hkv
    split_ifs at hkv2 with he
    · exact hmp kv (mem_delEntry hkv2)
    · rcases mem_setEntry hkv2 with h | h
      · rw [h]
        exact he
      · exact hmp kv h

theorem disconnect_noEmpty (ws : Conn) (d u : Option String) (m : ConnectionManager)
    (h : noEmptyKeys m) : noEmptyKeys (disconnect ws d u m) := by
  obtain ⟨h1, h2⟩ := h
  unfold disconnect
  cases d with
  | none =>
    cases u with
    | none => exact ⟨h1, h2⟩
    | some u' => exact ⟨h1, disconnectMap_noEmpty h2 ws u'⟩
  | some d' =>
    cases u with
    | none => exact ⟨disconnectMap_noEmpty h1 ws d', h2⟩
    | some u' => exact ⟨disconnectMap_noEmpty h1 ws d', disconnectMap_noEmpty h2 ws u'⟩

theorem cleanupMap_noEmpty {mp : ConnMap} (hmp : ∀ kv ∈ mp, kv.2 ≠ []) (ws : Conn) :
    ∀ kv ∈ cleanupMap ws mp, kv.2 ≠ [] := by
  intro kv hkv
  unfold cleanupMap at hkv
  rw [List.mem_filterMap] at hkv
  obtain ⟨a, ha, hfa⟩ := hkv
  by_cases hw : ws ∈ a.2
  · rw [if_pos hw] at hfa
    by_cases he : a.2.erase ws = []
    · rw [if_pos he] at hfa
      exact Option.noConfusion hfa
    · rw [if_neg he] at hfa
      obtain rfl := Option.some.inj hfa
      exact he
  · rw [if_neg hw] at hfa
    obtain rfl := Option.some.inj hfa
    exact hmp a ha

theorem cleanup_connection_noEmpty (ws : Conn) (m : ConnectionManager)
    (h : noEmptyKeys m) : noEmptyKeys (cleanup_connection ws m) :=
  ⟨cleanupMap_noEmpty h.1 ws, cleanupMap_noEmpty h.2 ws⟩

theorem foldl_cleanup_noEmpty (ds : List Conn) (m : ConnectionManager)
    (h : noEmptyKeys m) :
    noEmptyKeys (ds.foldl (fun acc c => cleanup_connection c acc) m) := by
  induction ds generalizing m with
  | nil => exact h
  | cons d ds ih =>
    simp only [List.foldl_cons]
    exact ih _ (cleanup_connection_noEmpty d m h)

theorem broadcast_all_noEmpty (dead : Conn → Bool) (m : ConnectionManager)
    (h : noEmptyKeys m) : noEmptyKeys (broadcast_to_all dead m).1 :=
  foldl_cleanup_noEmpty _ m h

theorem broadcast_device_delivers_members (dead : Conn → Bool) (k : String)
    (m : ConnectionManager) (c : Conn) (hc : c ∈ (broadcast_to_device dead k m).2) :
    c ∈ ((m.active_connections.lookup k).getD []) := by
  unfold broadcast_to_device at hc
  cases hl : m.active_connections.lookup k with
  | none =>
    rw [hl] at hc
    exact absurd hc (List.not_mem_nil c)
  | some conns =>
    rw [hl] at hc
    simpa using List.mem_of_mem_filter hc

theorem broadcast_user_delivers_members (dead : Conn → Bool) (k : String)
    (m : ConnectionManager) (c : Conn) (hc : c ∈ (broadcast_to_user dead k m).2) :
    c ∈ ((m.user_connections.lookup k).getD []) := by
  unfold broadcast_to_user at hc
  cases hl : m.user_connections.lookup k with
  | none =>
    rw [hl] at hc
    exact absurd hc (List.not_mem_nil c)
  | some conns =>
    rw [hl] at hc
    simpa using List.mem_of_mem_filter hc

theorem broadcast_all_count (dead : Conn → Bool) (m : ConnectionManager) (c : Conn) :
    (broadcast_to_all dead m).2.count c =
      if c ∈ allConnections m ∧ dead c = false then 1 else 0 := by
  have hdel : (broadcast_to_all dead m).2 = (allConnections m).filter (fun x => !dead x) := rfl
  rw [hdel]
  by_cases h : c ∈ allConnections m ∧ dead c = false
  · rw [if_pos h]
    refine List.count_eq_one_of_mem ((List.nodup_dedup _).filter _) ?_
    rw [List.mem_filter]
    exact ⟨h.1, by simp [h.2]⟩
  · rw [if_neg h]
    apply List.count_eq_zero_of_not_mem
    intro hc
    rw [List.mem_filter] at hc
    exact h ⟨hc.1, by simpa using hc.2⟩

/-! ## Claims C2, C6, C9 -/

/-- Claim C2 counterexample: connection 0 is registered under device key "d"
and under user key "u", and its send fails during the broadcast to "d"
(every send fails); yet after the broadcast it is still a member under "u" —
refuting the claim that a failed connection is removed from every membership
set of the registry. -/
theorem C2_counterexample :
    (fun _ : Conn => true) 0 = true ∧
    (0 : Conn) ∈ (((⟨[("d", [0])], [("u", [0])]⟩ :
      ConnectionManager).active_connections.lookup "d").getD []) ∧
    ((broadcast_to_device (fun _ => true) "d"
        (⟨[("d", [0])], [("u", [0])]⟩ : ConnectionManager)).1.user_connections.lookup "u") =
      some [0] :=
  ⟨rfl, by decide, rfl⟩

/-- Claim C2 (amended): a connection whose send fails during
`broadcast_to_device` (resp. `broadcast_to_user`) is, after the broadcast,
absent from the membership list of the key being broadcast to; but only from
that list — the other map is untouched and every other key of the same map
keeps its previous membership list.  Removal from every set is performed only
by `_cleanup_connection`, which these two per-key broadcasts do not call. -/
theorem C2_dead_pruning_amended (dead : Conn → Bool) (k : String) (m : ConnectionManager) :
    ((broadcast_to_device dead k m).1.user_connections = m.user_connections ∧
      (∀ k' : String, k' ≠ k →
        ((broadcast_to_device dead k m).1.active_connections.lookup k') =
          m.active_connections.lookup k') ∧
      (∀ c : Conn, dead c = true →
        c ∉ (((broadcast_to_device dead k m).1.active_connections.lookup k).getD []))) ∧
    ((broadcast_to_user dead k m).1.active_connections = m.active_connections ∧
      (∀ k' : String, k' ≠ k →
        ((broadcast_to_user dead k m).1.user_connections.lookup k') =
          m.user_connections.lookup k') ∧
      (∀ c : Conn, dead c = true →
        c ∉ (((broadcast_to_user dead k m).1.user_connections.lookup k).getD []))) :=
  ⟨broadcast_device_prunes dead k m, broadcast_user_prunes dead k m⟩

/-- Witness for the amended C2: connection 1 is dead and is pruned from the
broadcast key's own list, while the user-keyed map keeps it. -/
theorem C2_witness :
    (1 : Conn) ∉ (((broadcast_to_device (fun c => decide (c = 1)) "d"
        (⟨[("d", [0, 1])], [("u", [1])]⟩ :
          ConnectionManager)).1.active_connections.lookup "d").getD []) ∧
    (broadcast_to_device (fun c => decide (c = 1)) "d"
        (⟨[("d", [0, 1])], [("u", [1])]⟩ : ConnectionManager)).1.user_connections =
      [("u", [1])] :=
  ⟨(C2_dead_pruning_amended (fun c => decide (c = 1)) "d"
      (⟨[("d", [0, 1])], [("u", [1])]⟩ : ConnectionManager)).1.2.2 1 (by decide),
   (C2_dead_pruning_amended (fun c => decide (c = 1)) "d"
      (⟨[("d", [0, 1])], [("u", [1])]⟩ : ConnectionManager)).1.1⟩

/-- Claim C6: delivery isolation and `broadcast_to_all` deduplication.  A
broadcast to a device key delivers only to connections currently registered
under that device key (so a connection subscribed only under a user key
receives nothing), symmetrically for user keys; and `broadcast_to_all`
delivers exactly one copy to every distinct live connection of the union of
both maps, even when it is registered under several keys. -/
theorem C6_registry_isolation_and_dedup :
    (∀ (dead : Conn → Bool) (k : String) (m : ConnectionManager) (c : Conn),
      c ∈ (broadcast_to_device dead k m).2 →
        c ∈ ((m.active_connections.lookup k).getD [])) ∧
    (∀ (dead : Conn → Bool) (k : String) (m : ConnectionManager) (c : Conn),
      c ∈ (broadcast_to_user dead k m).2 →
        c ∈ ((m.user_connections.lookup k).getD [])) ∧
    (∀ (dead : Conn → Bool) (m : ConnectionManager) (c : Conn),
      (broadcast_to_all dead m).2.count c =
        if c ∈ allConnections m ∧ dead c = false then 1 else 0) :=
  ⟨broadcast_device_delivers_members, broadcast_user_delivers_members, broadcast_all_count⟩

/-- Witness for C6: connection 0 delivered by a device broadcast is a member
of that device key, and a connection registered under both a device key and a
user key receives exactly one copy from `broadcast_to_all`. -/
theorem C6_witness :
    (0 : Conn) ∈ (((⟨[("d", [0])], [("u", [1])]⟩ :
      ConnectionManager).active_connections.lookup "d").getD []) ∧
    (broadcast_to_all (fun _ => false)
      (⟨[("d", [0, 1])], [("u", [1])]⟩ : ConnectionManager)).2.count 1 = 1 :=
  ⟨C6_registry_isolation_and_dedup.1 (fun _ => false) "d"
      (⟨[("d", [0])], [("u", [1])]⟩ : ConnectionManager) 0 (by decide),
   C6_registry_isolation_and_dedup.2.2 (fun _ => false)
      (⟨[("d", [0, 1])], [("u", [1])]⟩ : ConnectionManager) 1⟩

/-- Claim C9 counterexample: device key "d" holds exactly one connection,
whose send fails during `broadcast_to_device`; the registry satisfied the
no-empty-keys invariant beforehand, but after the broadcast the key "d" is
still present and maps to the empty list — the per-key broadcast pruning
never deletes emptied keys. -/
theorem C9_counterexample :
    noEmptyKeys (⟨[("d", [0])], []⟩ : ConnectionManager) ∧
    (broadcast_to_device (fun _ => true) "d"
        (⟨[("d", [0])], []⟩ : ConnectionManager)).1.active_connections = [("d", [])] ∧
    ¬ noEmptyKeys (broadcast_to_device (fun _ => true) "d"
        (⟨[("d", [0])], []⟩ : ConnectionManager)).1 :=
  ⟨⟨by decide, by decide⟩, rfl, fun h => h.1 ("d", []) (List.mem_singleton.mpr rfl) rfl⟩

/-- Claim C9 (amended): the no-empty-keys invariant is preserved by
`connect`, by `disconnect`, by `_cleanup_connection` and hence by
`broadcast_to_all`; it is not preserved by `broadcast_to_device` /
`broadcast_to_user`, whose pruning loop removes dead connections from the
broadcast key's list without deleting the key when the list becomes empty. -/
theorem C9_no_empty_keys_amended :
    (∀ (ws : Conn) (d u : Option String) (m : ConnectionManager),
      noEmptyKeys m → noEmptyKeys (connect ws d u m)) ∧
    (∀ (ws : Conn) (d u : Option String) (m : ConnectionManager),
      noEmptyKeys m → noEmptyKeys (disconnect ws d u m)) ∧
    (∀ (ws : Conn) (m : ConnectionManager),
      noEmptyKeys m → noEmptyKeys (cleanup_connection ws m)) ∧
    (∀ (dead : Conn → Bool) (m : ConnectionManager),
      noEmptyKeys m → noEmptyKeys (broadcast_to_all dead m).1) :=
  ⟨connect_noEmpty, disconnect_noEmpty, cleanup_connection_noEmpty, broadcast_all_noEmpty⟩

/-- Witness for the amended C9: disconnecting the last connection of device
key "d" keeps the invariant (the key is deleted), and a `broadcast_to_all`
in which every send fails also keeps it (cleanup deletes emptied keys). -/
theorem C9_witness :
    noEmptyKeys (disconnect 0 (some "d") none
      (⟨[("d", [0]), ("e", [1])], [("u", [1])]⟩ : ConnectionManager)) ∧
    noEmptyKeys (broadcast_to_all (fun _ => true)
      (⟨[("d", [0])], [("u", [0])]⟩ : ConnectionManager)).1 :=
  ⟨C9_no_empty_keys_amended.2.1 0 (some "d") none
      (⟨[("d", [0]), ("e", [1])], [("u", [1])]⟩ : ConnectionManager) ⟨by decide, by decide⟩,
   C9_no_empty_keys_amended.2.2.2 (fun _ => true)
      (⟨[("d", [0])], [("u", [0])]⟩ : ConnectionManager) ⟨by decide, by decide⟩⟩
